import Mathlib

/-!
# Verification of the Repleno server core

Shallow embedding of the reconciliation/deletion core of
`src/Evidencia Proyecto/Repleno/server.js` (the current server) and, where a
claim cites it, of the earlier iteration `src/unnamed/part_000`.

The JavaScript file-backed pending-transaction store is modelled as an
association list from session ids to entries; JS object assignment and
`delete` become key-normalising insert and filter.  JS truthiness on strings
is modelled explicitly (`""`/absent are falsy).  Time is a `Nat` of
milliseconds passed in explicitly where the source reads `Date.now()`.
External calls (payment gateway commit/create, identity provider, document
database writes) are modelled by explicit outcome parameters, since the
source treats them as opaque awaited promises.
-/

set_option autoImplicit false

namespace Repleno

/-! ## Pending-transaction store (`guardarTransaccion` / `obtenerYBorrarTransaccion`) -/

/-- The purchase intent stored by `POST /crear-transaccion`:
`guardarTransaccion(sessionId, { plan, monto, userId })`. -/
structure Intent where
  plan : String
  monto : Nat
  userId : String
  deriving DecidableEq

/-- One record of `transactions_temp.json`: the spread `{ ...data, timestamp: Date.now() }`. -/
structure Entry where
  plan : String
  monto : Nat
  userId : String
  timestamp : Nat
  deriving DecidableEq

/-- The JSON object in `transactions_temp.json`, keyed by session id. -/
abbrev TxStore := List (String × Entry)

/-- Property lookup `dbCache[sessionId]` on the parsed JSON object. -/
def lookupTx (s : String) : TxStore → Option Entry
  | [] => none
  | (k, e) :: rest => if k = s then some e else lookupTx s rest

/-- `{ ...data, timestamp: ts }`. -/
def Entry.ofIntent (d : Intent) (ts : Nat) : Entry :=
  ⟨d.plan, d.monto, d.userId, ts⟩

/-- `guardarTransaccion(sessionId, data)` at time `now`:
`dbCache[sessionId] = { ...data, timestamp: Date.now() }` followed by a
rewrite of the whole file.  Assignment on a JS object overwrites the entry
for that key and keeps every other key. -/
def guardarTransaccion (sessionId : String) (data : Intent) (now : Nat) (st : TxStore) : TxStore :=
  (sessionId, Entry.ofIntent data now) :: st.filter (fun p => decide (p.1 ≠ sessionId))

/-- `guardarTransaccion` wraps all file I/O in `try { ... } catch (e) { console.error(...) }`:
a failing write is swallowed and leaves the on-disk object unchanged.  The
function is total — it never throws to its caller. -/
def guardarTransaccionF (writeFails : Bool) (sessionId : String) (data : Intent) (now : Nat)
    (st : TxStore) : TxStore :=
  if writeFails then st else guardarTransaccion sessionId data now st

/-- The expiry test `dbCache[k].timestamp && (now - dbCache[k].timestamp > 86400000)`:
a falsy (zero) timestamp is never expired, and JS `now - ts` on a future
timestamp is negative hence not `> 86400000`, matching truncated `Nat`
subtraction. -/
def expiredB (now : Nat) (e : Entry) : Bool :=
  decide (e.timestamp ≠ 0) && decide (now - e.timestamp > 86400000)

/-- `obtenerYBorrarTransaccion(sessionId)` at time `now`.  Faithful to the
source: the deletion of the looked-up key, the 24-hour garbage collection of
the *other* keys and the file write all happen inside `if (data) { ... }`;
on a miss the function returns `{}` (here `none`) and the store is untouched. -/
def obtenerYBorrarTransaccion (sessionId : String) (now : Nat) (st : TxStore) :
    Option Entry × TxStore :=
  match lookupTx sessionId st with
  | none => (none, st)
  | some data =>
      let st1 := st.filter (fun p => decide (p.1 ≠ sessionId))
      let st2 := st1.filter (fun p => !(expiredB now p.2))
      (some data, st2)

/-! ### Store lemmas -/

theorem lookupTx_guardar_self (s : String) (d : Intent) (t : Nat) (st : TxStore) :
    lookupTx s (guardarTransaccion s d t st) = some (Entry.ofIntent d t) := by
  simp [guardarTransaccion, lookupTx]

theorem lookupTx_filter_ne_self (s : String) (l : TxStore) :
    lookupTx s (l.filter (fun p => decide (p.1 ≠ s))) = none := by
  induction l with
  | nil => rfl
  | cons p rest ih =>
      by_cases h : p.1 = s
      · simpa [List.filter, h] using ih
      · simpa [List.filter, h, lookupTx] using ih

theorem lookupTx_none_filter (s : String) (q : String × Entry → Bool) (l : TxStore)
    (h : lookupTx s l = none) : lookupTx s (l.filter q) = none := by
  induction l with
  | nil => rfl
  | cons p rest ih =>
      rw [lookupTx] at h
      by_cases hk : p.1 = s
      · simp [hk] at h
      · rw [List.filter]
        cases hq : q p with
        | true => rw [lookupTx, if_neg hk]; exact ih (by simpa [hk] using h)
        | false => exact ih (by simpa [hk] using h)

/-- After `obtenerYBorrarTransaccion` finds an entry, its key is gone from the store. -/
theorem lookupTx_after_hit (s : String) (now : Nat) (st : TxStore) (d : Entry)
    (h : lookupTx s st = some d) :
    lookupTx s (obtenerYBorrarTransaccion s now st).2 = none := by
  rw [obtenerYBorrarTransaccion, h]
  exact lookupTx_none_filter s _ _ (lookupTx_filter_ne_self s st)

/-- C1: for every session id `s` and intent, `guardarTransaccion(s, intent)`
followed immediately by `obtenerYBorrarTransaccion(s)` returns exactly the
stored record (the intent together with its storage timestamp), and a second
`obtenerYBorrarTransaccion(s)` returns the empty record (`none`). -/
theorem put_then_take_roundtrip (s : String) (d : Intent) (t t1 t2 : Nat) (st : TxStore) :
    (obtenerYBorrarTransaccion s t1 (guardarTransaccion s d t st)).1
        = some (Entry.ofIntent d t)
    ∧ (obtenerYBorrarTransaccion s t2
        (obtenerYBorrarTransaccion s t1 (guardarTransaccion s d t st)).2).1 = none := by
  constructor
  · rw [obtenerYBorrarTransaccion, lookupTx_guardar_self]
  · have h2 : lookupTx s (obtenerYBorrarTransaccion s t1 (guardarTransaccion s d t st)).2
        = none :=
      lookupTx_after_hit s t1 _ _ (lookupTx_guardar_self s d t st)
    rw [obtenerYBorrarTransaccion, h2]

/-- C5 counterexample: with an entry `"a"` stored at timestamp 1 and the
clock at 10⁸ (far past the 24-hour window, so `expiredB` holds), a
`obtenerYBorrarTransaccion` call on the absent key `"b"` leaves the store
unchanged — the expired entry `"a"` is *not* garbage collected, because the
sweep only runs inside `if (data)`. -/
theorem takeAndExpire_miss_skips_gc :
    (obtenerYBorrarTransaccion "b" 100000000 [("a", ⟨"Plan Premium", 9990, "u1", 1⟩)]).2
        = [("a", ⟨"Plan Premium", 9990, "u1", 1⟩)]
    ∧ expiredB 100000000 ⟨"Plan Premium", 9990, "u1", 1⟩ = true := by
  constructor
  · rfl
  · decide

/-- C5 (amended): the 24-hour garbage collection is a side effect only of
`obtenerYBorrarTransaccion` calls whose looked-up key has an entry: on a hit
every expired entry is removed from the resulting store, while a call on an
absent key leaves the store (expired entries included) completely unchanged. -/
theorem takeAndExpire_gc_only_on_hit (s : String) (now : Nat) (st : TxStore) :
    (lookupTx s st = none → (obtenerYBorrarTransaccion s now st).2 = st)
    ∧ (∀ d, lookupTx s st = some d →
        ∀ p ∈ (obtenerYBorrarTransaccion s now st).2, expiredB now p.2 = false) := by
  constructor
  · intro h
    rw [obtenerYBorrarTransaccion, h]
  · intro d h p hp
    rw [obtenerYBorrarTransaccion, h] at hp
    simp only at hp
    have := List.of_mem_filter hp
    simpa using this

/-- Witness for `takeAndExpire_gc_only_on_hit`: a miss on `"b"` leaves a
concrete store unchanged, and a hit on `"a"` purges the expired entry `"c"`. -/
theorem takeAndExpire_gc_only_on_hit_witness :
    ((obtenerYBorrarTransaccion "b" 5 [("a", ⟨"p", 1, "u", 1⟩)]).2
        = [("a", ⟨"p", 1, "u", 1⟩)])
    ∧ (∀ p ∈ (obtenerYBorrarTransaccion "a" 100000000
          [("a", ⟨"p", 1, "u", 99999999⟩), ("c", ⟨"q", 2, "v", 1⟩)]).2,
        expiredB 100000000 p.2 = false) :=
  ⟨(takeAndExpire_gc_only_on_hit "b" 5 _).1 (by decide),
   (takeAndExpire_gc_only_on_hit "a" 100000000 _).2 ⟨"p", 1, "u", 99999999⟩ (by decide)⟩

/-! ## Recursive collection purge (`deleteCollection` / `deleteQueryBatch`) -/

/-- How the promise returned by `deleteCollection` settles.  `never` covers
the case where neither `resolve` nor `reject` is ever called: the recursive
`deleteQueryBatch` call is scheduled through `process.nextTick` without being
awaited, so a rejection of that inner promise is lost and the outer promise
stays pending forever. -/
inductive Outcome where
  | resolved
  | rejected
  | never
  deriving DecidableEq

/-- One run of the `deleteQueryBatch` recursion over the documents of the
target collection (identified here by their ids, in `__name__` order, which
is the query's ordering).  `fails k` says whether the `k`-th `batch.commit()`
throws; a failed commit applies none of its deletes.  `first` records whether
we are still inside the first invocation — the only one whose promise has the
`.catch(reject)` attached by `deleteCollection`.  The fuel argument only
bounds the recursion depth; `docs.length + 1` is always enough when the batch
size is positive. -/
def deleteQueryBatchAux :
    Nat → List String → Nat → (Nat → Bool) → Nat → Bool → Outcome × List String
  | 0, docs, _, _, _, _ => (Outcome.never, docs)
  | fuel + 1, docs, batchSize, fails, k, first =>
      if docs.isEmpty then (Outcome.resolved, docs)
      else if fails k then ((if first then Outcome.rejected else Outcome.never), docs)
      else deleteQueryBatchAux fuel (docs.drop batchSize) batchSize fails (k + 1) false

/-- `deleteCollection(db, collectionPath, batchSize)`: starts the
`deleteQueryBatch` recursion with `.catch(reject)` attached to the first
invocation only. -/
def deleteCollection (docs : List String) (batchSize : Nat) (fails : Nat → Bool) :
    Outcome × List String :=
  deleteQueryBatchAux (docs.length + 1) docs batchSize fails 0 true

/-- With a positive batch size and no commit failures the recursion drains the
collection and resolves. -/
theorem deleteQueryBatchAux_noFail (batchSize : Nat) (hbs : 1 ≤ batchSize)
    (fails : Nat → Bool) (hf : ∀ j, fails j = false) :
    ∀ fuel docs k first, List.length docs < fuel →
      deleteQueryBatchAux fuel docs batchSize fails k first = (Outcome.resolved, []) := by
  intro fuel
  induction fuel with
  | zero => intro docs k first h; omega
  | succ m ih =>
      intro docs k first h
      rw [deleteQueryBatchAux]
      cases docs with
      | nil => simp
      | cons d rest =>
          simp only [List.isEmpty_cons, Bool.false_eq_true, if_false, hf k]
          apply ih
          rw [List.length_drop]
          simp only [List.length_cons] at h ⊢
          omega

theorem deleteCollection_noFail (docs : List String) (batchSize : Nat) (hbs : 1 ≤ batchSize) :
    deleteCollection docs batchSize (fun _ => false) = (Outcome.resolved, []) :=
  deleteQueryBatchAux_noFail batchSize hbs _ (fun _ => rfl) _ docs 0 true (Nat.lt_succ_self _)

/-- A commit failure at batch index `k + n`, after `n` successful batches
starting from index `k`, is hit by an invocation whose promise nobody
observes (`first = false`), so the outcome is `never`. -/
theorem deleteQueryBatchAux_later_failure (batchSize : Nat) (hbs : 1 ≤ batchSize)
    (fails : Nat → Bool) :
    ∀ n fuel docs k, List.length docs < fuel →
      (∀ j, j < n → fails (k + j) = false) → fails (k + n) = true →
      n * batchSize < List.length docs →
      (deleteQueryBatchAux fuel docs batchSize fails k false).1 = Outcome.never := by
  intro n
  induction n with
  | zero =>
      intro fuel docs k hfuel _ hfail hlen
      simp only [Nat.zero_mul] at hlen
      simp only [Nat.add_zero] at hfail
      have hne : docs.isEmpty = false := by
        cases docs
        · simp at hlen
        · rfl
      cases fuel with
      | zero => omega
      | succ fl =>
          rw [deleteQueryBatchAux]
          simp [hne, hfail]
  | succ m ih =>
      intro fuel docs k hfuel hok hfail hlen
      cases fuel with
      | zero => omega
      | succ fl =>
          have hne : docs.isEmpty = false := by
            cases docs
            · simp at hlen
            · rfl
          have h0 : fails k = false := by simpa using hok 0 (Nat.succ_pos m)
          rw [deleteQueryBatchAux]
          simp only [hne, Bool.false_eq_true, if_false, h0]
          apply ih
          · rw [List.length_drop]
            omega
          · intro j hj
            have hj1 := hok (j + 1) (by omega)
            have he : k + 1 + j = k + (j + 1) := by omega
            rw [he]
            exact hj1
          · have he : k + 1 + m = k + (m + 1) := by omega
            rw [he]
            exact hfail
          · rw [List.length_drop]
            have hsm : (m + 1) * batchSize = m * batchSize + batchSize := by ring
            omega

/-- C4 counterexample: with batch size 1 over the two documents `["a","b"]`
and a commit-failure schedule that fails exactly the second batch, the
promise returned by `deleteCollection` never settles — the failure does not
surface to the caller as a rejection. -/
theorem deleteCollection_later_failure_unsettled :
    (deleteCollection ["a", "b"] 1 (fun k => decide (k = 1))).1 = Outcome.never
    ∧ Outcome.never ≠ Outcome.rejected := by
  constructor
  · rfl
  · decide

/-- C4 (amended): only a failure of the *first* `batch.commit` surfaces to
the caller as a rejection of the promise returned by `deleteCollection`; a
commit failure in any later batch (after `n ≥ 1` successful batches that did
not yet drain the collection) is raised inside an un-awaited
`process.nextTick` continuation, so the returned promise never settles. -/
theorem deleteCollection_failure_surfacing (docs : List String) (batchSize : Nat)
    (fails : Nat → Bool) (n : Nat) (hbs : 1 ≤ batchSize) :
    (docs ≠ [] → fails 0 = true → (deleteCollection docs batchSize fails).1 = Outcome.rejected)
    ∧ (0 < n → (∀ j, j < n → fails j = false) → fails n = true →
        n * batchSize < List.length docs →
        (deleteCollection docs batchSize fails).1 = Outcome.never) := by
  constructor
  · intro hne hf0
    have hne' : docs.isEmpty = false := by
      cases docs
      · exact absurd rfl hne
      · rfl
    rw [deleteCollection, deleteQueryBatchAux]
    simp [hne', hf0]
  · intro hn hok hfail hlen
    cases n with
    | zero => omega
    | succ m =>
        have hne : docs.isEmpty = false := by
          cases docs
          · simp at hlen
          · rfl
        have h0 : fails 0 = false := hok 0 (Nat.succ_pos m)
        rw [deleteCollection, deleteQueryBatchAux]
        simp only [hne, Bool.false_eq_true, if_false, h0]
        apply deleteQueryBatchAux_later_failure batchSize hbs fails m
        · rw [List.length_drop]
          omega
        · intro j hj
          have hj1 := hok (j + 1) (by omega)
          have he : 1 + j = j + 1 := Nat.add_comm 1 j
          rw [he]
          exact hj1
        · have he : 1 + m = m + 1 := Nat.add_comm 1 m
          rw [he]
          exact hfail
        · rw [List.length_drop]
          have hsm : (m + 1) * batchSize = m * batchSize + batchSize := by ring
          omega

/-- Witness for `deleteCollection_failure_surfacing`: a first-batch failure
rejects, and a failure on the second of three one-document batches leaves the
promise unsettled. -/
theorem deleteCollection_failure_surfacing_witness :
    (deleteCollection ["a", "b"] 1 (fun _ => true)).1 = Outcome.rejected
    ∧ (deleteCollection ["a", "b", "c"] 1 (fun k => decide (1 ≤ k))).1 = Outcome.never :=
  ⟨(deleteCollection_failure_surfacing ["a", "b"] 1 (fun _ => true) 0 (by decide)).1
      (by decide) rfl,
   (deleteCollection_failure_surfacing ["a", "b", "c"] 1 (fun k => decide (1 ≤ k)) 1
      (by decide)).2 (by decide) (by decide) (by decide) (by decide)⟩

/-! ## Account deletion (`app.delete('/api/admin/users/:uid')`) -/

/-- An error thrown by the identity provider.  Firebase Admin errors carry a
`code` string; `none` models an error object without a `code` property
(`e.code` is `undefined`, hence falsy in the handler's guard). -/
structure AuthErr where
  code : Option String
  deriving DecidableEq

/-- `s.startsWith(pre)` as a prefix test on the character sequences. -/
def strStartsWith (s pre : String) : Bool :=
  pre.data.isPrefixOf s.data

/-- The handler's rethrow guard
`e.code && e.code.startsWith('auth/') && e.code !== 'auth/user-not-found'`:
JS truthiness makes an absent or empty code falsy. -/
def fatalAuthB : Option String → Bool
  | none => false
  | some c => decide (c ≠ "") && strStartsWith c "auth/" && decide (c ≠ "auth/user-not-found")

/-- The backend state the deletion endpoint touches: the identity provider's
user records, the per-user `business_data/{uid}/transactions` subtrees, the
`business_data` parent documents and the `users` profile documents (each
collection by document id). -/
structure SState where
  authUsers : List String
  transactions : List (String × List String)
  businessData : List String
  users : List String
  deriving DecidableEq

/-- Response of the deletion endpoint: `res.json({ success: true })` or the
catch-all `res.status(500).json({ error: ... })`. -/
inductive AdminResp where
  | success
  | serverError
  deriving DecidableEq

/-- Documents of the `transactions` subcollection of one uid. -/
def lookupDocs (uid : String) : List (String × List String) → List String
  | [] => []
  | (k, v) :: rest => if k = uid then v else lookupDocs uid rest

def setDocs (uid : String) (v : List String) (l : List (String × List String)) :
    List (String × List String) :=
  (uid, v) :: l.filter (fun p => decide (p.1 ≠ uid))

/-- `adminAuth.deleteUser(uid)`: succeeds when the identity record exists and
removes it; throws `auth/user-not-found` when it does not.  `fault`, when
present, models any other error thrown by the provider call (outage, bad
credentials, ...). -/
def deleteUserCall (fault : Option AuthErr) (uid : String) (auth : List String) :
    Except AuthErr (List String) :=
  match fault with
  | some e => Except.error e
  | none =>
      if uid ∈ auth then Except.ok (auth.filter (fun u => decide (u ≠ uid)))
      else Except.error ⟨some "auth/user-not-found"⟩

/-- Steps 2–4 of the endpoint: purge the `transactions` subtree through
`deleteCollection(db, ..., 500)` (no commit faults are injected here — the
claims about this endpoint concern the identity step), then delete the
`business_data` and `users` documents.  Firestore's `doc.delete()` on an
absent document is a successful no-op, which the filters reproduce. -/
def adminDeleteSteps234 (uid : String) (st : SState) : AdminResp × SState :=
  let r := deleteCollection (lookupDocs uid st.transactions) 500 (fun _ => false)
  if r.1 = Outcome.resolved then
    (AdminResp.success,
      { st with
        transactions := setDocs uid r.2 st.transactions
        businessData := st.businessData.filter (fun d => decide (d ≠ uid))
        users := st.users.filter (fun d => decide (d ≠ uid)) })
  else (AdminResp.serverError, st)

/-- The `DELETE /api/admin/users/:uid` handler.  Step 1 deletes the identity
record inside its own `try`/`catch`: `auth/user-not-found` continues with the
database cleanup, an error whose code passes `fatalAuthB` is rethrown (and
caught by the route's outer `catch` as a 500), and any other error — in
particular one whose code does not start with `auth/` — is merely logged,
after which steps 2–4 run anyway. -/
def adminDeleteUser (uid : String) (fault : Option AuthErr) (st : SState) :
    AdminResp × SState :=
  match deleteUserCall fault uid st.authUsers with
  | Except.ok auth' => adminDeleteSteps234 uid { st with authUsers := auth' }
  | Except.error e =>
      if e.code = some "auth/user-not-found" then adminDeleteSteps234 uid st
      else if fatalAuthB e.code then (AdminResp.serverError, st)
      else adminDeleteSteps234 uid st

theorem adminDeleteSteps234_success (uid : String) (st : SState) :
    (adminDeleteSteps234 uid st).1 = AdminResp.success := by
  rw [adminDeleteSteps234]
  rw [deleteCollection_noFail _ _ (by omega)]
  rfl

theorem adminDeleteSteps234_authUsers (uid : String) (st : SState) :
    (adminDeleteSteps234 uid st).2.authUsers = st.authUsers := by
  rw [adminDeleteSteps234]
  rw [deleteCollection_noFail _ _ (by omega)]
  rfl

/-- `adminDeleteUser` on a thrown identity error reduces to the catch logic. -/
theorem adminDeleteUser_error (uid : String) (e : AuthErr) (st : SState) :
    adminDeleteUser uid (some e) st =
      if e.code = some "auth/user-not-found" then adminDeleteSteps234 uid st
      else if fatalAuthB e.code then (AdminResp.serverError, st)
      else adminDeleteSteps234 uid st := rfl

/-- `adminDeleteUser` with a healthy identity provider: an existing record is
removed, an absent record raises (and swallows) `auth/user-not-found`. -/
theorem adminDeleteUser_none (uid : String) (st : SState) :
    adminDeleteUser uid none st =
      if uid ∈ st.authUsers then
        adminDeleteSteps234 uid
          { st with authUsers := st.authUsers.filter (fun u => decide (u ≠ uid)) }
      else adminDeleteSteps234 uid st := by
  by_cases h : uid ∈ st.authUsers
  · rw [adminDeleteUser, deleteUserCall, if_pos h, if_pos h]
  · rw [adminDeleteUser, deleteUserCall, if_neg h, if_neg h]
    rfl

/-- C3 (amended, current server): in `server.js`, deleting an account twice
in succession returns success both times, although the identity record
exists only before the first call; the absent identity record, the emptied
transactions subtree and the already-deleted documents on the second run are
all treated as success.  (The `part_000` iteration lacks this tolerance; see
the counterexample above.) -/
theorem deleteAccount_idempotent (uid : String) (st : SState) (h : uid ∈ st.authUsers) :
    (adminDeleteUser uid none st).1 = AdminResp.success
    ∧ (adminDeleteUser uid none (adminDeleteUser uid none st).2).1 = AdminResp.success
    ∧ uid ∉ (adminDeleteUser uid none st).2.authUsers := by
  have h1 : adminDeleteUser uid none st
      = adminDeleteSteps234 uid
          { st with authUsers := st.authUsers.filter (fun u => decide (u ≠ uid)) } := by
    rw [adminDeleteUser_none, if_pos h]
  have hgone : uid ∉ (adminDeleteUser uid none st).2.authUsers := by
    rw [h1, adminDeleteSteps234_authUsers]
    intro hmem
    have := List.of_mem_filter hmem
    simp at this
  refine ⟨?_, ?_, hgone⟩
  · rw [h1]; exact adminDeleteSteps234_success _ _
  · rw [adminDeleteUser_none, if_neg hgone]
    exact adminDeleteSteps234_success _ _

/-- Witness for `deleteAccount_idempotent` at a concrete populated state. -/
theorem deleteAccount_idempotent_witness :
    let st : SState := ⟨["u1"], [("u1", ["t1", "t2"])], ["u1"], ["u1"]⟩
    (adminDeleteUser "u1" none st).1 = AdminResp.success
    ∧ (adminDeleteUser "u1" none (adminDeleteUser "u1" none st).2).1 = AdminResp.success
    ∧ "u1" ∉ (adminDeleteUser "u1" none st).2.authUsers :=
  deleteAccount_idempotent "u1" ⟨["u1"], [("u1", ["t1", "t2"])], ["u1"], ["u1"]⟩ (by decide)

/-- The `DELETE /api/admin/users/:uid` handler of `src/unnamed/part_000`.
Step 1 `await adminAuth.deleteUser(uid)` has no inner `try`/`catch`: any
identity-provider error — `auth/user-not-found` included — propagates to the
route's outer `catch` and answers 500 before any database cleanup runs.  On
success it deletes the `users` profile document, then the whole
`transactions` subcollection in one unbounded batch, then the
`business_data` parent document. -/
def adminDeleteUser_v0 (uid : String) (fault : Option AuthErr) (st : SState) :
    AdminResp × SState :=
  match deleteUserCall fault uid st.authUsers with
  | Except.error _ => (AdminResp.serverError, st)
  | Except.ok auth' =>
      (AdminResp.success,
        { authUsers := auth'
          transactions := setDocs uid [] st.transactions
          businessData := st.businessData.filter (fun d => decide (d ≠ uid))
          users := st.users.filter (fun d => decide (d ≠ uid)) })

/-- C3 counterexample: in the `part_000` variant of the deletion endpoint the
first call succeeds, but the second call on the same uid throws
`auth/user-not-found` into the route's outer `catch` and answers 500 — not
success — because `deleteUser` has no inner `try`/`catch` there. -/
theorem adminDelete_v0_second_call_fails :
    (adminDeleteUser_v0 "u1" none ⟨["u1"], [("u1", ["t1"])], ["u1"], ["u1"]⟩).1
      = AdminResp.success
    ∧ (adminDeleteUser_v0 "u1" none
        (adminDeleteUser_v0 "u1" none ⟨["u1"], [("u1", ["t1"])], ["u1"], ["u1"]⟩).2).1
      = AdminResp.serverError := by
  constructor
  · rfl
  · rfl

/-- C6 counterexample: an identity-provider error whose code is
`"app/network-error"` (not `auth/`-prefixed) is *not* fatal: the handler
swallows it, runs steps 2–4 — the `users` profile document is deleted — and
answers success, contrary to the claim that every identity-provider error
other than user-not-found is fatal and stops steps 2–4. -/
theorem adminDelete_nonauth_error_not_fatal :
    (adminDeleteUser "u1" (some ⟨some "app/network-error"⟩)
        ⟨["u1"], [("u1", ["t1"])], ["u1"], ["u1"]⟩).1 = AdminResp.success
    ∧ "u1" ∉ (adminDeleteUser "u1" (some ⟨some "app/network-error"⟩)
        ⟨["u1"], [("u1", ["t1"])], ["u1"], ["u1"]⟩).2.users := by
  constructor
  · rfl
  · decide

/-- C6 (amended): in the identity step, `auth/user-not-found` is treated as
success; an error is fatal (500, and steps 2–4 do not run, leaving the state
untouched) exactly when its code is truthy, starts with `auth/` and is not
`auth/user-not-found`; every other identity-provider error — e.g. one with a
non-`auth/` code or no code — is swallowed and steps 2–4 run anyway. -/
theorem adminDelete_auth_error_policy (uid : String) (fault : Option AuthErr) (st : SState) :
    ((adminDeleteUser uid fault st).1 = AdminResp.serverError
        ↔ ∃ e, fault = some e ∧ fatalAuthB e.code = true)
    ∧ (∀ e, fault = some e → fatalAuthB e.code = true →
        (adminDeleteUser uid fault st).2 = st) := by
  cases fault with
  | none =>
      have hsucc : (adminDeleteUser uid none st).1 = AdminResp.success := by
        rw [adminDeleteUser_none]
        by_cases h : uid ∈ st.authUsers
        · rw [if_pos h]; exact adminDeleteSteps234_success _ _
        · rw [if_neg h]; exact adminDeleteSteps234_success _ _
      constructor
      · constructor
        · intro hres
          rw [hsucc] at hres
          exact absurd hres (by simp)
        · rintro ⟨e, he, -⟩
          exact absurd he (by simp)
      · intro e he
        exact absurd he (by simp)
  | some e =>
      by_cases hunf : e.code = some "auth/user-not-found"
      · have hnf : fatalAuthB e.code = false := by rw [hunf]; decide
        have hred : adminDeleteUser uid (some e) st = adminDeleteSteps234 uid st := by
          rw [adminDeleteUser_error, if_pos hunf]
        constructor
        · constructor
          · intro hres
            rw [hred, adminDeleteSteps234_success] at hres
            exact absurd hres (by simp)
          · rintro ⟨e', he', hfat⟩
            cases Option.some.inj he'
            rw [hnf] at hfat
            exact absurd hfat (by simp)
        · intro e' he' hfat
          cases Option.some.inj he'
          rw [hnf] at hfat
          exact absurd hfat (by simp)
      · by_cases hfat : fatalAuthB e.code = true
        · have hres : adminDeleteUser uid (some e) st = (AdminResp.serverError, st) := by
            rw [adminDeleteUser_error, if_neg hunf, if_pos hfat]
          constructor
          · rw [hres]
            exact ⟨fun _ => ⟨e, rfl, hfat⟩, fun _ => rfl⟩
          · intro e' he' _
            cases Option.some.inj he'
            rw [hres]
        · have hfat' : ¬ fatalAuthB e.code = true := hfat
          have hred : adminDeleteUser uid (some e) st = adminDeleteSteps234 uid st := by
            rw [adminDeleteUser_error, if_neg hunf, if_neg hfat']
          constructor
          · constructor
            · intro hres
              rw [hred, adminDeleteSteps234_success] at hres
              exact absurd hres (by simp)
            · rintro ⟨e', he', hf⟩
              cases Option.some.inj he'
              exact absurd hf hfat
          · intro e' he' hf
            cases Option.some.inj he'
            exact absurd hf hfat

/-- Witness for `adminDelete_auth_error_policy`: a concrete fatal
`auth/internal-error` yields a 500 and leaves the state untouched. -/
theorem adminDelete_auth_error_policy_witness :
    (adminDeleteUser "u1" (some ⟨some "auth/internal-error"⟩)
        ⟨["u1"], [], [], ["u1"]⟩).1 = AdminResp.serverError
    ∧ (adminDeleteUser "u1" (some ⟨some "auth/internal-error"⟩)
        ⟨["u1"], [], [], ["u1"]⟩).2 = ⟨["u1"], [], [], ["u1"]⟩ :=
  ⟨(adminDelete_auth_error_policy "u1" (some ⟨some "auth/internal-error"⟩)
      ⟨["u1"], [], [], ["u1"]⟩).1.mpr ⟨⟨some "auth/internal-error"⟩, rfl, by decide⟩,
   (adminDelete_auth_error_policy "u1" (some ⟨some "auth/internal-error"⟩)
      ⟨["u1"], [], [], ["u1"]⟩).2 ⟨some "auth/internal-error"⟩ rfl (by decide)⟩

/-! ## Checkout return (`app.get('/retorno')`) -/

/-- The commit result returned by `tx.commit(token_ws)`.  `card_number`
models `result.card_detail?.card_number` (`none` when the optional chain
yields `undefined` or the field is falsy-absent), `transaction_date` likewise. -/
structure CommitResult where
  session_id : String
  status : String
  response_code : Int
  amount : Nat
  card_number : Option String
  transaction_date : Option String
  deriving DecidableEq

/-- The return request's query string. -/
structure Query where
  token_ws : Option String
  TBK_TOKEN : Option String
  TBK_ORDEN_COMPRA : Option String
  deriving DecidableEq

/-- JS truthiness of an optional query-string value: absent or empty is falsy. -/
def isT : Option String → Bool
  | none => false
  | some s => decide (s ≠ "")

/-- The fields of a `users` document touched by the success path. -/
structure Account where
  plan : String
  planStartDate : String
  subscriptionStatus : String
  deriving DecidableEq

abbrev Accounts := List (String × Account)

/-- `db.collection('users').doc(userId).update({ plan, planStartDate,
subscriptionStatus: 'active' })` on the matching document. -/
def updateAccount (uid plan nowIso : String) (accs : Accounts) : Accounts :=
  accs.map (fun p =>
    if p.1 = uid then (p.1, ⟨plan, nowIso, "active"⟩) else p)

/-- The redirect target `/retorno.html?...` decomposed into its parameters. -/
inductive RStatus where
  | success
  | rejected
  | cancelled
  | invalid
  | error
  deriving DecidableEq

structure Redirect where
  status : RStatus
  amount : Option Nat := none
  plan : Option String := none
  card : Option String := none
  date : Option String := none
  deriving DecidableEq

/-- `x || d` for the string fields of the success receipt. -/
def orElseStr : Option String → String → String
  | none, d => d
  | some s, d => if s = "" then d else s

/-- Environment of one `/retorno` request: the gateway commit outcome (an
`error` models `tx.commit` throwing), whether the Firestore `update` throws,
the server's `isFirebaseReady` flag, and the current clock (`Date.now()` in
milliseconds and `new Date().toISOString()`). -/
structure RetornoEnv where
  commitResult : Except Unit CommitResult
  updateFails : Bool
  isFirebaseReady : Bool
  now : Nat
  nowIso : String

/-- Server state visible to `/retorno`: the pending-transaction file and the
`users` collection. -/
structure WebState where
  txStore : TxStore
  accounts : Accounts
  deriving DecidableEq

/-- The `GET /retorno` handler of `server.js`.  An exception from
`tx.commit` or from the account update propagates to the route's `catch`,
which redirects with `status=error`; every throw happens atomically with
respect to the modelled state (a failed Firestore `update` applies nothing),
but note that `obtenerYBorrarTransaccion` has already rewritten the
pending-transaction file by the time the update runs. -/
def retorno (q : Query) (env : RetornoEnv) (st : WebState) : Redirect × WebState :=
  if isT q.TBK_TOKEN && !(isT q.token_ws) then ({ status := RStatus.cancelled }, st)
  else if !(isT q.token_ws) && isT q.TBK_ORDEN_COMPRA then ({ status := RStatus.rejected }, st)
  else if isT q.token_ws then
    match env.commitResult with
    | Except.error _ => ({ status := RStatus.error }, st)
    | Except.ok result =>
        let taken := obtenerYBorrarTransaccion result.session_id env.now st.txStore
        let st1 : WebState := { st with txStore := taken.2 }
        match taken.1 with
        | some e =>
            if result.status = "AUTHORIZED" ∧ result.response_code = 0 ∧ e.userId ≠ "" then
              let ok : Redirect :=
                { status := RStatus.success
                  amount := some result.amount
                  plan := some e.plan
                  card := some (orElseStr result.card_number "XXXX")
                  date := some (orElseStr result.transaction_date env.nowIso) }
              if env.isFirebaseReady then
                if env.updateFails then ({ status := RStatus.error }, st1)
                else (ok, { st1 with
                  accounts := updateAccount e.userId e.plan env.nowIso st1.accounts })
              else (ok, st1)
            else ({ status := RStatus.rejected }, st1)
        | none => ({ status := RStatus.rejected }, st1)
  else ({ status := RStatus.invalid }, st)

/-- C2 (amended, current server): with a commit token present and no stored
intent for the committed session id, `server.js` redirects `rejected`,
whatever the gateway reported. -/
theorem retorno_missing_intent_rejected (q : Query) (env : RetornoEnv) (st : WebState)
    (result : CommitResult) (htok : isT q.token_ws = true)
    (hc : env.commitResult = Except.ok result)
    (habs : lookupTx result.session_id st.txStore = none) :
    (retorno q env st).1.status = RStatus.rejected := by
  have htake : obtenerYBorrarTransaccion result.session_id env.now st.txStore
      = (none, st.txStore) := by
    rw [obtenerYBorrarTransaccion, habs]
  rw [retorno, if_neg (by rw [htok]; simp), if_neg (by rw [htok]; simp), if_pos htok, hc]
  simp only [htake]

/-- Witness for `retorno_missing_intent_rejected` on a concrete authorized
commit against an empty store. -/
theorem retorno_missing_intent_rejected_witness :
    (retorno ⟨some "tok", none, none⟩
        ⟨Except.ok ⟨"s1", "AUTHORIZED", 0, 9990, some "1234", some "d"⟩, false, true, 0, "iso"⟩
        ⟨[], []⟩).1.status = RStatus.rejected :=
  retorno_missing_intent_rejected _ _ _ _ rfl rfl rfl

/-- A record of the in-memory `tempTransactionStorage` of the earliest
iteration (`src/unnamed/part_000`), which stores `{ plan, userId }`. -/
structure V0Entry where
  plan : String
  userId : Option String
  deriving DecidableEq

def lookupV0 (s : String) : List (String × V0Entry) → Option V0Entry
  | [] => none
  | (k, e) :: rest => if k = s then some e else lookupV0 s rest

/-- The `GET /retorno` handler of `src/unnamed/part_000`.  Differences from
`server.js`: any truthy `TBK_TOKEN` means cancelled; a missing stored intent
falls back to `{ plan: 'Desconocido', userId: null }`; authorization checks
only `result.status === 'AUTHORIZED'`; the account update (skipped when
`userId` is falsy, its Firestore errors swallowed by an inner `catch`, hence
irrelevant to the redirect) is followed by a success redirect whose `card`
reads `result.card_detail.card_number` without a fallback, so an absent
card detail throws into the outer `catch`. -/
def retorno_v0 (q : Query) (commitResult : Except Unit CommitResult)
    (store : List (String × V0Entry)) : Redirect × List (String × V0Entry) :=
  if isT q.TBK_TOKEN then ({ status := RStatus.cancelled }, store)
  else if isT q.token_ws then
    match commitResult with
    | Except.error _ => ({ status := RStatus.error }, store)
    | Except.ok result =>
        let found := lookupV0 result.session_id store
        let plan := match found with
          | some e => e.plan
          | none => "Desconocido"
        let store1 := store.filter (fun p => decide (p.1 ≠ result.session_id))
        if result.status = "AUTHORIZED" then
          match result.card_number with
          | none => ({ status := RStatus.error }, store1)
          | some c =>
              ({ status := RStatus.success
                 amount := some result.amount
                 plan := some plan
                 card := some c
                 date := result.transaction_date }, store1)
        else ({ status := RStatus.rejected }, store1)
  else ({ status := RStatus.invalid }, store)

/-- C2 counterexample: in the `part_000` variant of the return handler, a
commit token with no stored intent for the committed session id does *not*
redirect `rejected` when the gateway authorizes: it redirects `success` with
the placeholder plan `"Desconocido"`. -/
theorem retorno_v0_missing_intent_success :
    (retorno_v0 ⟨some "tok", none, none⟩
        (Except.ok ⟨"s1", "AUTHORIZED", 0, 9990, some "1234", some "d"⟩) []).1.status
      = RStatus.success
    ∧ (retorno_v0 ⟨some "tok", none, none⟩
        (Except.ok ⟨"s1", "AUTHORIZED", 0, 9990, some "1234", some "d"⟩) []).1.plan
      = some "Desconocido" := by
  constructor
  · rfl
  · rfl

/-- C7 counterexample: when the Firestore account update throws on an
authorized commit, the handler does redirect `status=error`, but state other
than the account document *has* changed by then: the pending-transaction
entry consumed by `obtenerYBorrarTransaccion` is gone from the store. -/
theorem retorno_update_failure_store_mutated :
    (retorno ⟨some "tok", none, none⟩
        ⟨Except.ok ⟨"s1", "AUTHORIZED", 0, 9990, some "1234", some "d"⟩, true, true, 10, "iso"⟩
        ⟨[("s1", ⟨"Plan Premium", 9990, "u1", 5⟩)], [("u1", ⟨"Gratis", "", "none"⟩)]⟩).1.status
      = RStatus.error
    ∧ (retorno ⟨some "tok", none, none⟩
        ⟨Except.ok ⟨"s1", "AUTHORIZED", 0, 9990, some "1234", some "d"⟩, true, true, 10, "iso"⟩
        ⟨[("s1", ⟨"Plan Premium", 9990, "u1", 5⟩)], [("u1", ⟨"Gratis", "", "none"⟩)]⟩).2.txStore
      ≠ [("s1", ⟨"Plan Premium", 9990, "u1", 5⟩)] := by
  constructor
  · rfl
  · decide

/-- C7 (amended): an exception during the gateway commit redirects
`status=error` with the whole state unchanged; an exception during the
account update also redirects `status=error` and leaves every account
document unchanged (the update is atomic), but the pending-transaction store
has already been rewritten by `obtenerYBorrarTransaccion` — the consumed
entry is not restored. -/
theorem retorno_exception_effects (q : Query) (env : RetornoEnv) (st : WebState)
    (htok : isT q.token_ws = true) :
    (env.commitResult = Except.error () →
      retorno q env st = ({ status := RStatus.error }, st))
    ∧ (∀ result e, env.commitResult = Except.ok result →
        (obtenerYBorrarTransaccion result.session_id env.now st.txStore).1 = some e →
        result.status = "AUTHORIZED" → result.response_code = 0 → e.userId ≠ "" →
        env.isFirebaseReady = true → env.updateFails = true →
        (retorno q env st).1 = { status := RStatus.error }
        ∧ (retorno q env st).2.accounts = st.accounts
        ∧ (retorno q env st).2.txStore
            = (obtenerYBorrarTransaccion result.session_id env.now st.txStore).2) := by
  constructor
  · intro hc
    rw [retorno, if_neg (by rw [htok]; simp), if_neg (by rw [htok]; simp), if_pos htok, hc]
  · intro result e hc htake hs hrc hu hfb hup
    rw [retorno, if_neg (by rw [htok]; simp), if_neg (by rw [htok]; simp), if_pos htok, hc]
    simp only [htake, hfb, hup]
    rw [if_pos ⟨hs, hrc, hu⟩]
    simp

/-- Witness for `retorno_exception_effects`: both failure modes at concrete
inputs — a throwing commit, and a throwing account update after an
authorized commit that consumed the stored intent. -/
theorem retorno_exception_effects_witness :
    (retorno ⟨some "tok", none, none⟩ ⟨Except.error (), false, true, 0, "iso"⟩
        ⟨[("s1", ⟨"p", 1, "u1", 5⟩)], []⟩
      = ({ status := RStatus.error }, ⟨[("s1", ⟨"p", 1, "u1", 5⟩)], []⟩))
    ∧ ((retorno ⟨some "tok", none, none⟩
        ⟨Except.ok ⟨"s1", "AUTHORIZED", 0, 9990, some "1234", some "d"⟩, true, true, 10, "iso"⟩
        ⟨[("s1", ⟨"p", 1, "u1", 5⟩)], [("u1", ⟨"Gratis", "", "none"⟩)]⟩).1
          = { status := RStatus.error }
      ∧ (retorno ⟨some "tok", none, none⟩
        ⟨Except.ok ⟨"s1", "AUTHORIZED", 0, 9990, some "1234", some "d"⟩, true, true, 10, "iso"⟩
        ⟨[("s1", ⟨"p", 1, "u1", 5⟩)], [("u1", ⟨"Gratis", "", "none"⟩)]⟩).2.accounts
          = [("u1", ⟨"Gratis", "", "none"⟩)]
      ∧ (retorno ⟨some "tok", none, none⟩
        ⟨Except.ok ⟨"s1", "AUTHORIZED", 0, 9990, some "1234", some "d"⟩, true, true, 10, "iso"⟩
        ⟨[("s1", ⟨"p", 1, "u1", 5⟩)], [("u1", ⟨"Gratis", "", "none"⟩)]⟩).2.txStore
          = (obtenerYBorrarTransaccion "s1" 10 [("s1", ⟨"p", 1, "u1", 5⟩)]).2) :=
  ⟨(retorno_exception_effects ⟨some "tok", none, none⟩ ⟨Except.error (), false, true, 0, "iso"⟩
      ⟨[("s1", ⟨"p", 1, "u1", 5⟩)], []⟩ rfl).1 rfl,
   (retorno_exception_effects ⟨some "tok", none, none⟩
      ⟨Except.ok ⟨"s1", "AUTHORIZED", 0, 9990, some "1234", some "d"⟩, true, true, 10, "iso"⟩
      ⟨[("s1", ⟨"p", 1, "u1", 5⟩)], [("u1", ⟨"Gratis", "", "none"⟩)]⟩ rfl).2
      ⟨"s1", "AUTHORIZED", 0, 9990, some "1234", some "d"⟩ ⟨"p", 1, "u1", 5⟩
      rfl rfl rfl rfl (by decide) rfl rfl⟩

/-- C9: on an authorized commit (`AUTHORIZED`, `response_code` 0) whose
stored intent names a user, a server whose document database is not
connected (`isFirebaseReady = false`) still redirects `status=success` with
the receipt parameters, while no account document is touched: a success
outcome with no subscription update performed. -/
theorem retorno_success_without_update (q : Query) (env : RetornoEnv) (st : WebState)
    (result : CommitResult) (e : Entry)
    (htok : isT q.token_ws = true)
    (hc : env.commitResult = Except.ok result)
    (hl : lookupTx result.session_id st.txStore = some e)
    (hs : result.status = "AUTHORIZED") (hrc : result.response_code = 0)
    (hu : e.userId ≠ "") (hfb : env.isFirebaseReady = false) :
    (retorno q env st).1.status = RStatus.success
    ∧ (retorno q env st).1.amount = some result.amount
    ∧ (retorno q env st).1.plan = some e.plan
    ∧ (retorno q env st).2.accounts = st.accounts := by
  have htake : (obtenerYBorrarTransaccion result.session_id env.now st.txStore).1 = some e := by
    rw [obtenerYBorrarTransaccion, hl]
  rw [retorno, if_neg (by rw [htok]; simp), if_neg (by rw [htok]; simp), if_pos htok, hc]
  simp only [htake, hfb]
  rw [if_pos ⟨hs, hrc, hu⟩]
  simp

/-- Witness for `retorno_success_without_update` at a concrete state with a
stored premium intent and a disconnected database. -/
theorem retorno_success_without_update_witness :
    (retorno ⟨some "tok", none, none⟩
        ⟨Except.ok ⟨"s1", "AUTHORIZED", 0, 9990, some "1234", some "d"⟩, false, false, 10, "iso"⟩
        ⟨[("s1", ⟨"Plan Premium", 9990, "u1", 5⟩)], [("u1", ⟨"Gratis", "", "none"⟩)]⟩).1.status
      = RStatus.success
    ∧ (retorno ⟨some "tok", none, none⟩
        ⟨Except.ok ⟨"s1", "AUTHORIZED", 0, 9990, some "1234", some "d"⟩, false, false, 10, "iso"⟩
        ⟨[("s1", ⟨"Plan Premium", 9990, "u1", 5⟩)], [("u1", ⟨"Gratis", "", "none"⟩)]⟩).1.amount
      = some 9990
    ∧ (retorno ⟨some "tok", none, none⟩
        ⟨Except.ok ⟨"s1", "AUTHORIZED", 0, 9990, some "1234", some "d"⟩, false, false, 10, "iso"⟩
        ⟨[("s1", ⟨"Plan Premium", 9990, "u1", 5⟩)], [("u1", ⟨"Gratis", "", "none"⟩)]⟩).1.plan
      = some "Plan Premium"
    ∧ (retorno ⟨some "tok", none, none⟩
        ⟨Except.ok ⟨"s1", "AUTHORIZED", 0, 9990, some "1234", some "d"⟩, false, false, 10, "iso"⟩
        ⟨[("s1", ⟨"Plan Premium", 9990, "u1", 5⟩)], [("u1", ⟨"Gratis", "", "none"⟩)]⟩).2.accounts
      = [("u1", ⟨"Gratis", "", "none"⟩)] :=
  retorno_success_without_update ⟨some "tok", none, none⟩
    ⟨Except.ok ⟨"s1", "AUTHORIZED", 0, 9990, some "1234", some "d"⟩, false, false, 10, "iso"⟩
    ⟨[("s1", ⟨"Plan Premium", 9990, "u1", 5⟩)], [("u1", ⟨"Gratis", "", "none"⟩)]⟩
    ⟨"s1", "AUTHORIZED", 0, 9990, some "1234", some "d"⟩ ⟨"Plan Premium", 9990, "u1", 5⟩
    rfl rfl rfl rfl rfl (by decide) rfl

/-! ## AI retry helper (`generateContentWithRetry`) -/

/-- The retry loop of `generateContentWithRetry`: `call n` is the outcome of
the `n`-th `model.generateContent(prompt)` attempt (attempts are numbered by
the `retries` counter, which counts the failures so far).  `delays` collects
the `delay(1000 * (retries + 1))` waits performed, in order. -/
def generateContentWithRetryAux {α : Type} (call : Nat → Except String α)
    (retries : Nat) (delays : List Nat) : Except String α × List Nat :=
  match call retries with
  | Except.ok a => (Except.ok a, delays)
  | Except.error e =>
      if _h : retries ≥ 3 then (Except.error e, delays)
      else generateContentWithRetryAux call (retries + 1) (delays ++ [1000 * (retries + 1)])
termination_by 4 - retries
decreasing_by omega

def generateContentWithRetry {α : Type} (call : Nat → Except String α) :
    Except String α × List Nat :=
  generateContentWithRetryAux call 0 []

theorem generateContentWithRetryAux_ok {α : Type} (call : Nat → Except String α)
    (retries : Nat) (delays : List Nat) (a : α) (h : call retries = Except.ok a) :
    generateContentWithRetryAux call retries delays = (Except.ok a, delays) := by
  rw [generateContentWithRetryAux, h]

theorem generateContentWithRetryAux_step {α : Type} (call : Nat → Except String α)
    (retries : Nat) (delays : List Nat) (e : String) (h : call retries = Except.error e)
    (hr : retries < 3) :
    generateContentWithRetryAux call retries delays
      = generateContentWithRetryAux call (retries + 1) (delays ++ [1000 * (retries + 1)]) := by
  rw [generateContentWithRetryAux, h]
  exact dif_neg (by omega)

theorem generateContentWithRetryAux_exhausted {α : Type} (call : Nat → Except String α)
    (delays : List Nat) (e : String) (h : call 3 = Except.error e) :
    generateContentWithRetryAux call 3 delays = (Except.error e, delays) := by
  rw [generateContentWithRetryAux, h]
  exact dif_pos (by omega)

/-- C8: `generateContentWithRetry` retries a failing model call up to 3 times
with linearly increasing backoff: a call failing twice then succeeding on the
third attempt returns the success after waits of 1000 ms and 2000 ms, and a
call failing on all four attempts (the initial one plus 3 retries, with waits
1000, 2000 and 3000 ms) surfaces the last error. -/
theorem generateContentWithRetry_policy {α : Type} (call : Nat → Except String α)
    (e0 e1 e2 e3 : String) (a : α) :
    (call 0 = Except.error e0 → call 1 = Except.error e1 → call 2 = Except.ok a →
      generateContentWithRetry call = (Except.ok a, [1000, 2000]))
    ∧ (call 0 = Except.error e0 → call 1 = Except.error e1 → call 2 = Except.error e2 →
        call 3 = Except.error e3 →
      generateContentWithRetry call = (Except.error e3, [1000, 2000, 3000])) := by
  constructor
  · intro h0 h1 h2
    rw [generateContentWithRetry,
      generateContentWithRetryAux_step call 0 _ e0 h0 (by omega),
      generateContentWithRetryAux_step call 1 _ e1 h1 (by omega),
      generateContentWithRetryAux_ok call 2 _ a h2]
    rfl
  · intro h0 h1 h2 h3
    rw [generateContentWithRetry,
      generateContentWithRetryAux_step call 0 _ e0 h0 (by omega),
      generateContentWithRetryAux_step call 1 _ e1 h1 (by omega),
      generateContentWithRetryAux_step call 2 _ e2 h2 (by omega),
      generateContentWithRetryAux_exhausted call _ e3 h3]
    rfl

/-- Witness for `generateContentWithRetry_policy`: a concrete call failing
twice then succeeding, and one failing on every attempt. -/
theorem generateContentWithRetry_policy_witness :
    generateContentWithRetry (fun n => if n < 2 then Except.error "busy" else Except.ok 7)
      = (Except.ok 7, [1000, 2000])
    ∧ generateContentWithRetry (fun _ => (Except.error "busy" : Except String Nat))
      = (Except.error "busy", [1000, 2000, 3000]) :=
  ⟨(generateContentWithRetry_policy
      (fun n => if n < 2 then Except.error "busy" else Except.ok 7)
      "busy" "busy" "x" "x" 7).1 rfl rfl rfl,
   (generateContentWithRetry_policy (fun _ => (Except.error "busy" : Except String Nat))
      "busy" "busy" "busy" "busy" 0).2 rfl rfl rfl rfl⟩

/-! ## Checkout creation (`app.post('/crear-transaccion')`) -/

/-- The validated request body `{ monto, plan, userId }`. -/
structure CrearBody where
  monto : Nat
  plan : String
  userId : String
  deriving DecidableEq

/-- The guard `if (!monto || !plan || !userId)` under JS truthiness. -/
def bodyTruthy (b : CrearBody) : Bool :=
  decide (b.monto ≠ 0) && decide (b.plan ≠ "") && decide (b.userId ≠ "")

/-- `tx.create(...)`'s successful payload, echoed as `{ url, token }`. -/
structure CreateResp where
  url : String
  token : String
  deriving DecidableEq

/-- Responses of `POST /crear-transaccion`. -/
inductive CrearResult where
  | ok (url token : String)
  | err400
  | err500
  | err503
  deriving DecidableEq

/-- The `POST /crear-transaccion` handler: 503 when Firebase is not ready,
400 on missing fields; otherwise it stores the pending intent via
`guardarTransaccion` (whose internal `catch` swallows write failures — the
`writeFails` flag) and then calls `tx.create`, answering `{ url, token }` on
success and 500 when the gateway call throws.  The generated `sessionId`
(`'SES-' + Date.now()`) is a parameter. -/
def crearTransaccion (body : CrearBody) (isFirebaseReady writeFails : Bool)
    (sessionId : String) (now : Nat) (createResult : Except Unit CreateResp)
    (st : TxStore) : CrearResult × TxStore :=
  if !isFirebaseReady then (CrearResult.err503, st)
  else if !(bodyTruthy body) then (CrearResult.err400, st)
  else
    let st1 := guardarTransaccionF writeFails sessionId ⟨body.plan, body.monto, body.userId⟩ now st
    match createResult with
    | Except.ok r => (CrearResult.ok r.url r.token, st1)
    | Except.error _ => (CrearResult.err500, st1)

/-- C10: `guardarTransaccion` never throws (its catch swallows storage
errors), so a valid checkout initiation still creates the gateway session
and answers `{ url, token }` for *both* values of the write-failure flag;
when the write failed the intent is simply absent from the store. -/
theorem crearTransaccion_ok_despite_store_failure (body : CrearBody) (writeFails : Bool)
    (sessionId : String) (now : Nat) (r : CreateResp) (st : TxStore)
    (hb : bodyTruthy body = true) :
    (crearTransaccion body true writeFails sessionId now (Except.ok r) st).1
      = CrearResult.ok r.url r.token
    ∧ (writeFails = true →
        (crearTransaccion body true writeFails sessionId now (Except.ok r) st).2 = st) := by
  constructor
  · rw [crearTransaccion]
    simp [hb]
  · intro hw
    rw [crearTransaccion]
    simp [hb, hw, guardarTransaccionF]

/-- Witness for `crearTransaccion_ok_despite_store_failure` with a failing
store write on a concrete valid request. -/
theorem crearTransaccion_ok_despite_store_failure_witness :
    (crearTransaccion ⟨9990, "Plan Premium", "u1"⟩ true true "SES-1" 1
        (Except.ok ⟨"https://webpay", "tok"⟩) []).1
      = CrearResult.ok "https://webpay" "tok"
    ∧ (crearTransaccion ⟨9990, "Plan Premium", "u1"⟩ true true "SES-1" 1
        (Except.ok ⟨"https://webpay", "tok"⟩) []).2 = [] :=
  ⟨(crearTransaccion_ok_despite_store_failure ⟨9990, "Plan Premium", "u1"⟩ true "SES-1" 1
      ⟨"https://webpay", "tok"⟩ [] (by decide)).1,
   (crearTransaccion_ok_despite_store_failure ⟨9990, "Plan Premium", "u1"⟩ true "SES-1" 1
      ⟨"https://webpay", "tok"⟩ [] (by decide)).2 rfl⟩

end Repleno
